import Mathlib

/-!
Verification of the CatClient HDRV0 launcher core (src/Cat4k.py) against its
specification. The stateful methods of the `CatClientHDRV0` class are embedded
as pure functions over an explicit `ClientState`; external effects (HTTP
responses, the random uuid generator, the settings file, the java install
directory) are passed in as explicit inputs or tracked as fields/outputs.
-/

/-- `MINECRAFT_DIR = os.path.expanduser("~/.minecraft")`; `expanduser` is kept
symbolic (the literal with the leading tilde), as no claim depends on the
expansion. -/
def MINECRAFT_DIR : String := "~/.minecraft"

/-- `VERSIONS_DIR = os.path.join(MINECRAFT_DIR, "versions")`. -/
def VERSIONS_DIR : String := MINECRAFT_DIR ++ "/versions"

/-- `JAVA_DIR = os.path.expanduser("~/.catclient/java")`, tilde kept symbolic. -/
def JAVA_DIR : String := "~/.catclient/java"

/-- The `[settings]` section of `catclient_config.ini`: keys `mode`,
`java_path`, `client_token`.  `client_token` is optional because a hand-edited
file may lack it (the code tests `'client_token' not in self.config['settings']`). -/
structure Settings where
  mode : String
  java_path : String
  client_token : Option String
deriving Repr, DecidableEq

/-- The observable state of a `CatClientHDRV0` instance together with the
environment it mutates: the in-memory config, the persisted config file
(`none` = file absent), the in-memory auth fields, the version mapping, and
the java install directory.  `javaExeExists` records whether the runtime
executable itself is present inside `JAVA_DIR` (the code never creates it:
the download is an unimplemented placeholder). -/
structure ClientState where
  cfg : Settings
  configFile : Option Settings
  logged_in : Bool
  access_token : Option String
  username : Option String
  uuid : Option String
  versions : List (String × String)
  javaDirExists : Bool
  javaExeExists : Bool
deriving Repr, DecidableEq

/-- Python dict insert with string keys: an existing key is overwritten in
place, a new key is appended (insertion order preserved). -/
def dictInsert (d : List (String × String)) (k v : String) : List (String × String) :=
  if d.any (fun p => p.1 = k) then d.map (fun p => if p.1 = k then (k, v) else p)
  else d ++ [(k, v)]

/-- `{v["id"]: v["url"] for v in data["versions"]}` — builds the id → url dict
from the manifest's `versions` array. -/
def buildVersionDict (vs : List (String × String)) : List (String × String) :=
  vs.foldl (fun d kv => dictInsert d kv.1 kv.2) []

/-- Python dict lookup, i.e. what `resolve(id)` means on the mapping. -/
def resolve (versions : List (String × String)) (id : String) : Option String :=
  (versions.find? (fun p => p.1 = id)).map Prod.snd

/-- Outcome of the single `urlopen` + `json.loads` in `fetch_versions`:
either a decoded manifest (its `versions` array as id/url pairs) or any
exception (network or decode failure). -/
inductive FetchResult where
  | ok (manifest : List (String × String))
  | err (msg : String)
deriving Repr, DecidableEq

/-- `CatClientHDRV0.fetch_versions` (src/Cat4k.py lines 67-75): on success the
mapping is rebuilt wholesale from the manifest; on any exception the handler
runs `self.versions = {}`. -/
def fetch_versions (st : ClientState) (r : FetchResult) : ClientState :=
  match r with
  | .ok manifest => { st with versions := buildVersionDict manifest }
  | .err _ => { st with versions := [] }

/-- The parsed JSON body of the auth response, as far as `login` consumes it:
`data['accessToken']` and `data['selectedProfile']['id'] / ['name']`, each
possibly absent (absence raises `KeyError` in the source). -/
structure AuthResponse where
  accessToken : Option String
  selectedProfile : Option (Option String × Option String)
deriving Repr, DecidableEq

/-- Outcome of the auth exchange in `login`: an HTTP error response, any
other exception (network, decode), or a parsed 2xx JSON body. -/
inductive LoginOutcome where
  | httpError (code : Nat) (body : String)
  | netError (msg : String)
  | response (r : AuthResponse)
deriving Repr, DecidableEq

/-- `CatClientHDRV0.login` (src/Cat4k.py lines 193-228).  The four assignments
`self.access_token = data['accessToken']`, `self.uuid = ...['id']`,
`self.username = ...['name']`, `self.logged_in = True` run in order inside the
`try`; a `KeyError` at any step aborts there (earlier assignments persist) and
the `except` branch sets `self.logged_in = False`. -/
def login (st : ClientState) (out : LoginOutcome) : ClientState :=
  match out with
  | .httpError _ _ => { st with logged_in := false }
  | .netError _ => { st with logged_in := false }
  | .response r =>
    match r.accessToken with
    | none => { st with logged_in := false }
    | some tok =>
      match r.selectedProfile with
      | none => { st with access_token := some tok, logged_in := false }
      | some (pid?, pname?) =>
        match pid? with
        | none => { st with access_token := some tok, logged_in := false }
        | some pid =>
          match pname? with
          | none => { st with access_token := some tok, uuid := some pid, logged_in := false }
          | some pname =>
            { st with access_token := some tok, uuid := some pid,
                      username := some pname, logged_in := true }

/-- `CatClientHDRV0.update_mode` (src/Cat4k.py lines 182-191): writes the
selected mode into the config and persists it; the remaining statements only
pack/unpack UI widgets. -/
def update_mode (st : ClientState) (mode : String) : ClientState :=
  let cfg' := { st.cfg with mode := mode }
  { st with cfg := cfg', configFile := some cfg' }

/-- The `__init__` config block (src/Cat4k.py lines 47-59): read the file if it
exists, else create defaults `mode = 'offline'`, `java_path = ''`,
`client_token = str(uuid.uuid4())` and write; then, if the loaded settings
lack `client_token`, generate one and write immediately.  `freshTok` is the
value `str(uuid.uuid4())` would produce on this load. -/
def loadConfig (file : Option Settings) (freshTok : String) : Settings :=
  match file with
  | none => { mode := "offline", java_path := "", client_token := some freshTok }
  | some s =>
    match s.client_token with
    | some _ => s
    | none => { s with client_token := some freshTok }

/-- The persisted file content after the `__init__` config block: every branch
that changes the settings writes them back, so the file afterwards holds
exactly the in-memory settings. -/
def loadConfigFile (file : Option Settings) (freshTok : String) : Option Settings :=
  some (loadConfig file freshTok)

/-- Result of `install_java_if_needed`: the returned path, the state after the
call, whether the provisioning branch (`makedirs` + placeholder download) ran,
and how many network operations were performed (the download is an
unimplemented placeholder in the source, so none are). -/
structure InstallResult where
  path : String
  state : ClientState
  attempted : Bool
  netOps : Nat
deriving Repr, DecidableEq

/-- `CatClientHDRV0.install_java_if_needed` (src/Cat4k.py lines 235-246): if
`JAVA_DIR` does not exist, create it (the download/extract is a placeholder
comment, so no executable appears and no network happens); then unconditionally
compute the java path, store it into `config['settings']['java_path']` and
write the config file; return the path. -/
def install_java_if_needed (isWindows : Bool) (st : ClientState) : InstallResult :=
  let attempted := !st.javaDirExists
  let st1 := if st.javaDirExists then st else { st with javaDirExists := true }
  let java_path := JAVA_DIR ++ "/bin/" ++ (if isWindows then "java.exe" else "java")
  let cfg' := { st1.cfg with java_path := java_path }
  { path := java_path,
    state := { st1 with cfg := cfg', configFile := some cfg' },
    attempted := attempted,
    netOps := 0 }

/-- Python's `s.split('.')` on explicit character lists: `acc` holds the
(reversed) current field. -/
def splitDot (acc : List Char) : List Char → List (List Char)
  | [] => [acc.reverse]
  | c :: rest => if c = '.' then acc.reverse :: splitDot [] rest else splitDot (c :: acc) rest

/-- Outcome of `prepare_and_launch`: the validation error shown, the uncaught
`IndexError` raised by `version.split('.')[1]`, or the fully built argument
vector handed to `subprocess.Popen`. -/
inductive LaunchResult where
  | authError
  | noVersionError
  | indexError
  | launched (cmd : List String)
deriving Repr, DecidableEq

/-- Projection: the argument vector when a launch was attempted. -/
def launchedArgs : LaunchResult → Option (List String)
  | .launched cmd => some cmd
  | _ => none

/-- Observable outcome of one `prepare_and_launch` call: the result, the state
afterwards, whether `install_java_if_needed` was called, and whether
`subprocess.Popen` was attempted. -/
structure LaunchOutcome where
  result : LaunchResult
  state : ClientState
  provisionCalled : Bool
  spawned : Bool
deriving Repr, DecidableEq

/-- `CatClientHDRV0.prepare_and_launch` (src/Cat4k.py lines 248-279).
`version` is the combo-box selection, `freshUuid` the value `str(uuid.uuid4())`
would produce for the offline `--uuid` argument.  Gate 1: TLauncher mode and
not logged in.  Gate 2: empty version.  Then `install_java_if_needed` runs,
and the command list is built; evaluating `version.split('.')[1]` raises an
uncaught `IndexError` when the split has fewer than two fields, which aborts
the method before `Popen`. -/
def prepare_and_launch (isWindows : Bool) (st : ClientState) (version : String)
    (freshUuid : String) : LaunchOutcome :=
  if st.cfg.mode = "TLauncher Mode" ∧ st.logged_in = false then
    { result := .authError, state := st, provisionCalled := false, spawned := false }
  else if version = "" then
    { result := .noVersionError, state := st, provisionCalled := false, spawned := false }
  else
    let ir := install_java_if_needed isWindows st
    match (splitDot [] version.data).get? 1 with
    | none =>
      { result := .indexError, state := ir.state, provisionCalled := true, spawned := false }
    | some idxChars =>
      let cmd := [ir.path,
        "-Djava.library.path=" ++ VERSIONS_DIR,
        "-cp", MINECRAFT_DIR,
        "net.minecraft.client.main.Main",
        "--username", if st.logged_in then st.username.getD "" else "Player",
        "--version", version,
        "--gameDir", MINECRAFT_DIR,
        "--assetsDir", MINECRAFT_DIR ++ "/assets",
        "--assetIndex", String.mk idxChars,
        "--uuid", if st.logged_in then st.uuid.getD "" else freshUuid,
        "--accessToken", if st.logged_in then st.access_token.getD "" else "0"]
      { result := .launched cmd, state := ir.state, provisionCalled := true, spawned := true }

/-- A concrete baseline state used by the counterexample theorems. -/
def demoState : ClientState :=
  { cfg := { mode := "Offline Mode", java_path := "", client_token := some "tok" },
    configFile := some { mode := "Offline Mode", java_path := "", client_token := some "tok" },
    logged_in := false, access_token := none, username := none, uuid := none,
    versions := [("1.20.1", "http://x")],
    javaDirExists := false, javaExeExists := false }

/-- A `split('.')` over characters none of which is a dot yields the single
field consisting of everything seen so far. -/
theorem splitDot_no_dot (l : List Char) (acc : List Char) (h : ∀ c ∈ l, c ≠ '.') :
    splitDot acc l = [acc.reverse ++ l] := by
  induction l generalizing acc with
  | nil => simp [splitDot]
  | cons c rest ih =>
    have hc : c ≠ '.' := h c (List.mem_cons_self c rest)
    rw [splitDot, if_neg hc, ih (c :: acc) (fun d hd => h d (List.mem_cons_of_mem c hd))]
    simp

/-- `split('.')` always yields at least one field. -/
theorem splitDot_length_pos (l : List Char) (acc : List Char) :
    1 ≤ (splitDot acc l).length := by
  induction l generalizing acc with
  | nil => simp [splitDot]
  | cons c rest ih =>
    by_cases hc : c = '.'
    · rw [splitDot, if_pos hc]
      simp
    · rw [splitDot, if_neg hc]
      exact ih (c :: acc)

/-- `split('.')` of a string containing a dot yields at least two fields. -/
theorem splitDot_two_le (l : List Char) (acc : List Char) (h : '.' ∈ l) :
    2 ≤ (splitDot acc l).length := by
  induction l generalizing acc with
  | nil => cases h
  | cons c rest ih =>
    by_cases hc : c = '.'
    · rw [splitDot, if_pos hc]
      have := splitDot_length_pos rest []
      simp
      omega
    · rw [splitDot, if_neg hc]
      rcases List.mem_cons.mp h with h' | h'
      · exact absurd h'.symm hc
      · exact ih (c :: acc) h'

/-- C1 (counterexample): starting from a state whose catalog holds the single
entry `1.20.1`, a failed `fetch_versions` does not leave the mapping equal to
the mapping before the refresh — the claim as stated is false on this code. -/
theorem fetch_versions_failure_not_preserving :
    (fetch_versions demoState (.err "connection refused")).versions ≠ demoState.versions := by
  decide

/-- C1 (amended): on a network or decode failure, `fetch_versions` replaces
the mapping with the empty mapping — a failed refresh always empties the
catalog, populated or not. -/
theorem fetch_versions_failure_empties (st : ClientState) (msg : String) :
    (fetch_versions st (FetchResult.err msg)).versions = [] := rfl

/-- C2: with the mode set to `TLauncher Mode` and `logged_in` false,
`prepare_and_launch` reports the auth-required error for every selected
version, calls no provisioning, attempts no spawn, and leaves the state
unchanged. -/
theorem launch_auth_gate (isWindows : Bool) (st : ClientState) (version freshUuid : String)
    (hmode : st.cfg.mode = "TLauncher Mode") (hlog : st.logged_in = false) :
    (prepare_and_launch isWindows st version freshUuid).result = LaunchResult.authError ∧
    (prepare_and_launch isWindows st version freshUuid).provisionCalled = false ∧
    (prepare_and_launch isWindows st version freshUuid).spawned = false ∧
    (prepare_and_launch isWindows st version freshUuid).state = st := by
  simp [prepare_and_launch, hmode, hlog]

/-- C2 witness: the auth gate fires on a concrete TLauncher-mode state. -/
def tlauncherState : ClientState :=
  { demoState with cfg := { mode := "TLauncher Mode", java_path := "", client_token := some "tok" } }

theorem launch_auth_gate_witness :
    (prepare_and_launch false tlauncherState "1.20.1" "u").result = LaunchResult.authError ∧
    (prepare_and_launch false tlauncherState "1.20.1" "u").provisionCalled = false ∧
    (prepare_and_launch false tlauncherState "1.20.1" "u").spawned = false ∧
    (prepare_and_launch false tlauncherState "1.20.1" "u").state = tlauncherState :=
  launch_auth_gate false tlauncherState "1.20.1" "u" rfl rfl

/-- C3: `login` ends signed in exactly when the parsed response carried an
access token, a profile id and a profile name; a response missing any of them
leaves `logged_in` false — never success. -/
theorem login_signed_in_iff_complete_response (st : ClientState) (out : LoginOutcome) :
    (login st out).logged_in = true ↔
      ∃ tok pid pname, out = LoginOutcome.response
        { accessToken := some tok, selectedProfile := some (some pid, some pname) } := by
  constructor
  · intro h
    match out with
    | .httpError c b => simp [login] at h
    | .netError m => simp [login] at h
    | .response ⟨none, _⟩ => simp [login] at h
    | .response ⟨some tok, none⟩ => simp [login] at h
    | .response ⟨some tok, some (none, _)⟩ => simp [login] at h
    | .response ⟨some tok, some (some pid, none)⟩ => simp [login] at h
    | .response ⟨some tok, some (some pid, some pname)⟩ => exact ⟨tok, pid, pname, rfl⟩
  · rintro ⟨tok, pid, pname, rfl⟩
    simp [login]

/-- C4 (counterexample): in a state whose catalog does not resolve `1.16.5`,
launching that non-empty id is not rejected with any error: provisioning is
called and a spawn is attempted — `prepare_and_launch` never consults the
catalog, so the resolution half of the claim is false on this code. -/
theorem launch_no_catalog_check :
    resolve demoState.versions "1.16.5" = none ∧ "1.16.5" ≠ "" ∧
    (prepare_and_launch false demoState "1.16.5" "u").provisionCalled = true ∧
    (prepare_and_launch false demoState "1.16.5" "u").spawned = true := by
  decide

/-- C4 (amended): when the auth gate passes, an empty selected version id
fails with the select-a-version error and triggers no provisioning or spawn
and leaves the state unchanged; but no catalog-resolution check exists, so a
non-empty unresolvable id proceeds past validation. -/
theorem launch_empty_version_rejected (isWindows : Bool) (st : ClientState) (freshUuid : String)
    (hgate : ¬(st.cfg.mode = "TLauncher Mode" ∧ st.logged_in = false)) :
    (prepare_and_launch isWindows st "" freshUuid).result = LaunchResult.noVersionError ∧
    (prepare_and_launch isWindows st "" freshUuid).provisionCalled = false ∧
    (prepare_and_launch isWindows st "" freshUuid).spawned = false ∧
    (prepare_and_launch isWindows st "" freshUuid).state = st := by
  simp [prepare_and_launch, hgate]

theorem launch_empty_version_rejected_witness :
    (prepare_and_launch false demoState "" "u").result = LaunchResult.noVersionError ∧
    (prepare_and_launch false demoState "" "u").provisionCalled = false ∧
    (prepare_and_launch false demoState "" "u").spawned = false ∧
    (prepare_and_launch false demoState "" "u").state = demoState :=
  launch_empty_version_rejected false demoState "u" (by decide)

/-- C5: loading the settings twice with no intervening save yields the same
`client_token`; an absent file is created with mode `offline` (the Offline
default), empty `java_path` and the freshly generated 36-character uuid as
token; an existing file lacking `client_token` has one regenerated and
persisted immediately. -/
theorem loadConfig_idempotent_defaults (t1 t2 m j : String) (h36 : t1.length = 36) :
    loadConfig (loadConfigFile none t1) t2 = loadConfig none t1 ∧
    loadConfig none t1 = { mode := "offline", java_path := "", client_token := some t1 } ∧
    t1.length = 36 ∧
    loadConfig (some { mode := m, java_path := j, client_token := none }) t2 =
      { mode := m, java_path := j, client_token := some t2 } ∧
    loadConfigFile (some { mode := m, java_path := j, client_token := none }) t2 =
      some { mode := m, java_path := j, client_token := some t2 } :=
  ⟨rfl, rfl, h36, rfl, rfl⟩

theorem loadConfig_idempotent_defaults_witness :
    loadConfig (loadConfigFile none "00000000-0000-4000-8000-000000000000") "t2" =
      loadConfig none "00000000-0000-4000-8000-000000000000" ∧
    loadConfig none "00000000-0000-4000-8000-000000000000" =
      { mode := "offline", java_path := "",
        client_token := some "00000000-0000-4000-8000-000000000000" } ∧
    ("00000000-0000-4000-8000-000000000000" : String).length = 36 ∧
    loadConfig (some { mode := "offline", java_path := "", client_token := none }) "t2" =
      { mode := "offline", java_path := "", client_token := some "t2" } ∧
    loadConfigFile (some { mode := "offline", java_path := "", client_token := none }) "t2" =
      some { mode := "offline", java_path := "", client_token := some "t2" } :=
  loadConfig_idempotent_defaults "00000000-0000-4000-8000-000000000000" "t2" "offline" ""
    (by decide)

/-- A concrete state whose java install directory exists while the runtime
executable inside it does not. -/
def provisionedState : ClientState := { demoState with javaDirExists := true }

/-- C6 (counterexample): in a state where the runtime directory already
exists, `install_java_if_needed` still mutates the observable state: the
settings `java_path` changes from `""` to the computed path and the config
file is rewritten, so the call is not pure. -/
theorem install_java_rewrites_settings :
    provisionedState.javaDirExists = true ∧
    (install_java_if_needed false provisionedState).state.cfg ≠ provisionedState.cfg := by
  decide

/-- C6 (amended): when the runtime directory already exists,
`install_java_if_needed` performs no network I/O (indeed no call ever does:
the download is an unimplemented placeholder), skips the provisioning branch,
returns the fixed computed path and leaves the filesystem flags unchanged —
but it unconditionally rewrites the settings, setting `java_path` to the
computed path and persisting the config file on every call. -/
theorem install_java_provisioned_no_net (isWindows : Bool) (st : ClientState)
    (h : st.javaDirExists = true) :
    (install_java_if_needed isWindows st).netOps = 0 ∧
    (install_java_if_needed isWindows st).attempted = false ∧
    (install_java_if_needed isWindows st).path =
      JAVA_DIR ++ "/bin/" ++ (if isWindows then "java.exe" else "java") ∧
    (install_java_if_needed isWindows st).state =
      { st with
          cfg := { st.cfg with
            java_path := JAVA_DIR ++ "/bin/" ++ (if isWindows then "java.exe" else "java") },
          configFile := some { st.cfg with
            java_path := JAVA_DIR ++ "/bin/" ++ (if isWindows then "java.exe" else "java") } } := by
  simp [install_java_if_needed, h]

theorem install_java_provisioned_no_net_witness :
    (install_java_if_needed false provisionedState).netOps = 0 ∧
    (install_java_if_needed false provisionedState).attempted = false ∧
    (install_java_if_needed false provisionedState).path =
      JAVA_DIR ++ "/bin/" ++ (if false then "java.exe" else "java") ∧
    (install_java_if_needed false provisionedState).state =
      { provisionedState with
          cfg := { provisionedState.cfg with
            java_path := JAVA_DIR ++ "/bin/" ++ (if false then "java.exe" else "java") },
          configFile := some { provisionedState.cfg with
            java_path := JAVA_DIR ++ "/bin/" ++ (if false then "java.exe" else "java") } } :=
  install_java_provisioned_no_net false provisionedState rfl

/-- C7 (counterexample): a state in which the install directory exists but
the runtime executable does not — exactly what a failed or incomplete
provisioning leaves behind, since the directory is created before any
download and never removed — is mistaken for already provisioned: the next
call skips the provisioning branch entirely and still does not create the
executable.  The presence check validates directory existence, not the
executable. -/
theorem install_java_dir_check_only :
    provisionedState.javaDirExists = true ∧ provisionedState.javaExeExists = false ∧
    (install_java_if_needed false provisionedState).attempted = false ∧
    (install_java_if_needed false provisionedState).state.javaExeExists = false := by
  decide

/-- C7 (amended): the presence check of `install_java_if_needed` is mere
directory existence: whenever `JAVA_DIR` exists the provisioning branch is
skipped regardless of whether the executable is present, and nothing removes
the directory; moreover a call that does provision creates the directory
without creating the executable (the download is a placeholder), so the
resulting partially-written state satisfies the presence check on the next
call. -/
theorem install_java_presence_is_dir_existence (isWindows : Bool) (st st' : ClientState)
    (h : st.javaDirExists = true) (h' : st'.javaDirExists = false) :
    (install_java_if_needed isWindows st).attempted = false ∧
    (install_java_if_needed isWindows st).state.javaDirExists = true ∧
    (install_java_if_needed isWindows st).state.javaExeExists = st.javaExeExists ∧
    (install_java_if_needed isWindows st').attempted = true ∧
    (install_java_if_needed isWindows st').state.javaDirExists = true ∧
    (install_java_if_needed isWindows st').state.javaExeExists = st'.javaExeExists := by
  simp [install_java_if_needed, h, h']

theorem install_java_presence_is_dir_existence_witness :
    (install_java_if_needed false provisionedState).attempted = false ∧
    (install_java_if_needed false provisionedState).state.javaDirExists = true ∧
    (install_java_if_needed false provisionedState).state.javaExeExists =
      provisionedState.javaExeExists ∧
    (install_java_if_needed false demoState).attempted = true ∧
    (install_java_if_needed false demoState).state.javaDirExists = true ∧
    (install_java_if_needed false demoState).state.javaExeExists = demoState.javaExeExists :=
  install_java_presence_is_dir_existence false provisionedState demoState rfl rfl

/-- A concrete signed-in state (as produced by a fully successful `login`). -/
def signedInState : ClientState :=
  { demoState with
      cfg := { mode := "TLauncher Mode", java_path := "", client_token := some "tok" },
      logged_in := true, access_token := some "at",
      username := some "alice", uuid := some "pid" }

/-- C8 (counterexample): from a signed-in state, switching the mode to
`Offline Mode` leaves the in-memory identity fully intact — the signed-in
flag, access token, profile id and profile name are all still present
afterwards, so the claim that the switch clears them is false on this code. -/
theorem update_mode_keeps_identity :
    signedInState.logged_in = true ∧
    (update_mode signedInState "Offline Mode").logged_in = true ∧
    (update_mode signedInState "Offline Mode").access_token = some "at" ∧
    (update_mode signedInState "Offline Mode").username = some "alice" ∧
    (update_mode signedInState "Offline Mode").uuid = some "pid" := by
  decide

/-- C8 (amended): a mode switch updates and persists only the mode — it never
touches the identity fields; and a failed authentication exchange (HTTP error
or any other exception) clears only the `logged_in` flag, leaving previously
assigned token/profile fields in place. -/
theorem update_mode_and_failed_login (st : ClientState) (m : String) (code : Nat)
    (body msg : String) :
    (update_mode st m).logged_in = st.logged_in ∧
    (update_mode st m).access_token = st.access_token ∧
    (update_mode st m).username = st.username ∧
    (update_mode st m).uuid = st.uuid ∧
    (update_mode st m).cfg = { st.cfg with mode := m } ∧
    login st (LoginOutcome.httpError code body) = { st with logged_in := false } ∧
    login st (LoginOutcome.netError msg) = { st with logged_in := false } :=
  ⟨rfl, rfl, rfl, rfl, rfl, rfl, rfl⟩

/-- C9: an offline launch (not signed in, mode not TLauncher) of a non-empty
dotted version id builds the argument vector with the placeholder username
`Player` at the `--username` slot, the freshly generated uuid at the `--uuid`
slot and the null-equivalent token `0` at the `--accessToken` slot, and the
spawn is attempted (offline launch is never blocked on missing identity);
two launch calls with distinct fresh uuids carry distinct non-empty `--uuid`
values. -/
theorem offline_launch_args (isWindows : Bool) (st : ClientState) (version f1 f2 : String)
    (hlog : st.logged_in = false) (hmode : st.cfg.mode ≠ "TLauncher Mode")
    (hv : version ≠ "") (hdot : '.' ∈ version.data)
    (hf1 : f1 ≠ "") (hf2 : f2 ≠ "") (hne : f1 ≠ f2) :
    ((launchedArgs (prepare_and_launch isWindows st version f1).result).bind
      (fun cmd => cmd.get? 6)) = some "Player" ∧
    ((launchedArgs (prepare_and_launch isWindows st version f1).result).bind
      (fun cmd => cmd.get? 16)) = some f1 ∧
    ((launchedArgs (prepare_and_launch isWindows st version f1).result).bind
      (fun cmd => cmd.get? 18)) = some "0" ∧
    ((launchedArgs (prepare_and_launch isWindows st version f2).result).bind
      (fun cmd => cmd.get? 16)) = some f2 ∧
    (prepare_and_launch isWindows st version f1).spawned = true ∧
    f1 ≠ f2 ∧ f1 ≠ "" ∧ f2 ≠ "" := by
  obtain ⟨idx, hidx⟩ : ∃ idx, (splitDot [] version.data)[1]? = some idx := by
    have h2 := splitDot_two_le version.data [] hdot
    cases h : (splitDot [] version.data)[1]? with
    | none =>
      rw [List.getElem?_eq_none_iff] at h
      omega
    | some idx => exact ⟨idx, rfl⟩
  refine ⟨?_, ?_, ?_, ?_, ?_, hne, hf1, hf2⟩ <;>
    simp [prepare_and_launch, hmode, hv, hidx, hlog, launchedArgs]

/-- C9 witness: a concrete offline launch of `1.20.1` with two fresh uuids. -/
theorem offline_launch_args_witness :
    ((launchedArgs (prepare_and_launch false demoState "1.20.1" "aaaa").result).bind
      (fun cmd => cmd.get? 6)) = some "Player" ∧
    ((launchedArgs (prepare_and_launch false demoState "1.20.1" "aaaa").result).bind
      (fun cmd => cmd.get? 16)) = some "aaaa" ∧
    ((launchedArgs (prepare_and_launch false demoState "1.20.1" "aaaa").result).bind
      (fun cmd => cmd.get? 18)) = some "0" ∧
    ((launchedArgs (prepare_and_launch false demoState "1.20.1" "bbbb").result).bind
      (fun cmd => cmd.get? 16)) = some "bbbb" ∧
    (prepare_and_launch false demoState "1.20.1" "aaaa").spawned = true ∧
    ("aaaa" : String) ≠ "bbbb" ∧ ("aaaa" : String) ≠ "" ∧ ("bbbb" : String) ≠ "" :=
  offline_launch_args false demoState "1.20.1" "aaaa" "bbbb" rfl (by decide) (by decide)
    (by decide) (by decide) (by decide) (by decide)

/-- C10: for a launch that passes the auth gate (any mode that is not
TLauncher-without-login, including the signed-in TLauncher case) and the
non-empty gate, a version id containing no `.` makes `version.split('.')[1]`
raise an out-of-range index error: the call ends in `indexError` and no
process is spawned (the asset-index derivation is total only for ids with at
least one dot). -/
theorem launch_assetIndex_dot_totality (isWindows : Bool) (st : ClientState)
    (version freshUuid : String)
    (hgate : ¬(st.cfg.mode = "TLauncher Mode" ∧ st.logged_in = false)) (hv : version ≠ "")
    (hnodot : ∀ c ∈ version.data, c ≠ '.') :
    (prepare_and_launch isWindows st version freshUuid).result = LaunchResult.indexError ∧
    (prepare_and_launch isWindows st version freshUuid).spawned = false := by
  have hsplit : splitDot [] version.data = [version.data] := by
    have := splitDot_no_dot version.data [] hnodot
    simpa using this
  have hidx : (splitDot [] version.data)[1]? = none := by
    rw [hsplit]
    rfl
  constructor <;> simp [prepare_and_launch, hgate, hv, hidx]

/-- C10 witness: the snapshot id `23w13a` (no dot) ends in the index error
with no spawn. -/
theorem launch_assetIndex_dot_totality_witness :
    (prepare_and_launch false demoState "23w13a" "u").result = LaunchResult.indexError ∧
    (prepare_and_launch false demoState "23w13a" "u").spawned = false :=
  launch_assetIndex_dot_totality false demoState "23w13a" "u" (by decide) (by decide)
    (by decide)
